import Mathlib

/-!
Verification of the mec-backup repository (linkerd2 control-plane sources)
against its natural-language specification.

The Go sources are shallowly embedded: pure functions become Lean functions,
`uint64` arithmetic is `Nat` with explicit `% 2 ^ 64` where overflow matters,
`float64` division is modelled exactly on `ℚ` (the claims under study concern
guard structure, not rounding), and fallible code returns `Except` or
`Option` pairs mirroring Go's `(result, error)` convention.
-/

/-! ## String helpers

`sprintf` models Go's `fmt.Sprintf` restricted to `%s` verbs, which is the
only form used by the embedded sources: each `%s` in the template is replaced
by the next argument; all other characters are copied verbatim.
-/

def sprintfAux : List Char → List String → List Char
  | [], _ => []
  | '%' :: 's' :: rest, a :: args => a.data ++ sprintfAux rest args
  | '%' :: 's' :: rest, [] => '%' :: 's' :: sprintfAux rest []
  | c :: rest, args => c :: sprintfAux rest args

def sprintf (template : String) (args : List String) : String :=
  String.mk (sprintfAux template.data args)

/-- Characters escaped by Go's `regexp.QuoteMeta` (its `specialBytes` set). -/
def isRegexSpecial (c : Char) : Bool :=
  c = '\\' || c = '.' || c = '+' || c = '*' || c = '?' || c = '(' || c = ')' ||
  c = '|' || c = '[' || c = ']' || c = '\x7b' || c = '\x7d' || c = '^' || c = '$'

def quoteMetaAux : List Char → List Char
  | [] => []
  | c :: rest =>
    if isRegexSpecial c then '\\' :: c :: quoteMetaAux rest
    else c :: quoteMetaAux rest

/-- Embedding of Go `regexp.QuoteMeta`: escape every regex metacharacter with
a backslash. -/
def QuoteMeta (s : String) : String := String.mk (quoteMetaAux s.data)

/-! ## pkg/k8s/k8s.go: resource-name constants and conversions -/

def Authority : String := "authority"
def DaemonSet : String := "daemonset"
def Deployment : String := "deployment"
def Job : String := "job"
def Namespace : String := "namespace"
def Pod : String := "pod"
def ReplicationController : String := "replicationcontroller"
def ReplicaSet : String := "replicaset"
def Service : String := "service"
def ServiceProfileName : String := "serviceprofile"
def StatefulSet : String := "statefulset"
def AllName : String := "all"

/-- Embedding of `AllResources` from pkg/k8s/k8s.go. -/
def AllResources : List String :=
  [Authority, DaemonSet, Deployment, Job, Namespace, Pod,
   ReplicationController, ReplicaSet, Service, ServiceProfileName, StatefulSet]

/-- Embedding of `CanonicalResourceNameFromFriendlyName` from pkg/k8s/k8s.go:
a `switch` over command-line shorthands; unmatched input yields the error
return `("", fmt.Errorf(...))`, modelled as `Except.error`. -/
def CanonicalResourceNameFromFriendlyName (friendlyName : String) :
    Except String String :=
  if friendlyName = "au" ∨ friendlyName = "authority" ∨ friendlyName = "authorities" then
    .ok Authority
  else if friendlyName = "ds" ∨ friendlyName = "daemonset" ∨ friendlyName = "daemonsets" then
    .ok DaemonSet
  else if friendlyName = "deploy" ∨ friendlyName = "deployment" ∨ friendlyName = "deployments" then
    .ok Deployment
  else if friendlyName = "job" ∨ friendlyName = "jobs" then
    .ok Job
  else if friendlyName = "ns" ∨ friendlyName = "namespace" ∨ friendlyName = "namespaces" then
    .ok Namespace
  else if friendlyName = "po" ∨ friendlyName = "pod" ∨ friendlyName = "pods" then
    .ok Pod
  else if friendlyName = "rc" ∨ friendlyName = "replicationcontroller" ∨ friendlyName = "replicationcontrollers" then
    .ok ReplicationController
  else if friendlyName = "rs" ∨ friendlyName = "replicaset" ∨ friendlyName = "replicasets" then
    .ok ReplicaSet
  else if friendlyName = "svc" ∨ friendlyName = "service" ∨ friendlyName = "services" then
    .ok Service
  else if friendlyName = "sp" ∨ friendlyName = "serviceprofile" ∨ friendlyName = "serviceprofiles" then
    .ok ServiceProfileName
  else if friendlyName = "sts" ∨ friendlyName = "statefulset" ∨ friendlyName = "statefulsets" then
    .ok StatefulSet
  else if friendlyName = "all" then
    .ok AllName
  else
    .error ("cannot find Kubernetes canonical name from friendly name [" ++ friendlyName ++ "]")

/-- Embedding of `ShortNameFromCanonicalResourceName` from pkg/k8s/k8s.go. -/
def ShortNameFromCanonicalResourceName (canonicalName : String) : String :=
  if canonicalName = Authority then "au"
  else if canonicalName = DaemonSet then "ds"
  else if canonicalName = Deployment then "deploy"
  else if canonicalName = Job then "job"
  else if canonicalName = Namespace then "ns"
  else if canonicalName = Pod then "po"
  else if canonicalName = ReplicationController then "rc"
  else if canonicalName = ReplicaSet then "rs"
  else if canonicalName = Service then "svc"
  else if canonicalName = ServiceProfileName then "sp"
  else if canonicalName = StatefulSet then "sts"
  else ""

/-! ## cli/cmd/root.go: rate helpers

Counts are Go `uint64`: sums wrap modulo `2 ^ 64`, written explicitly.
`float64` division is modelled exactly on `ℚ`; the claims concern the
division-by-zero guard, which is independent of float rounding.
-/

/-- Embedding of `getSuccessRate`. -/
def getSuccessRate (success failure : ℕ) : ℚ :=
  if (success + failure) % 2 ^ 64 = 0 then 0
  else (success : ℚ) / (((success + failure) % 2 ^ 64 : ℕ) : ℚ)

structure BasicStats where
  SuccessCount : ℕ
  FailureCount : ℕ
  TlsRequestCount : ℕ
deriving DecidableEq

/-- Embedding of `getPercentTLS`. -/
def getPercentTLS (stats : BasicStats) : ℚ :=
  if (stats.SuccessCount + stats.FailureCount) % 2 ^ 64 = 0 then 0
  else (stats.TlsRequestCount : ℚ) /
    (((stats.SuccessCount + stats.FailureCount) % 2 ^ 64 : ℕ) : ℚ)

/-! ## profiles/proto.go: deriving a ServiceProfile from a protobuf definition

The parsing library (`emicklei/proto`) is external; its output is embedded as
a list of top-level elements in declaration order. `proto.Walk` visits each
element and then its children, so a `service` element carries its `rpc` names
in declaration order; the `handle` closure in `protoToServiceProfile` reacts
only to `Package` nodes (recording the name) and to `RPC` nodes whose parent
is a `Service`. `other` stands for any node the closure ignores (imports,
messages, options, ...).
-/

inductive ProtoElem
  | pkg (name : String)
  | svc (name : String) (rpcs : List String)
  | other
deriving DecidableEq

structure RequestMatch where
  Method : String
  PathRegex : String
deriving DecidableEq

structure RouteSpec where
  Name : String
  Condition : RequestMatch
deriving DecidableEq

structure ObjectMeta where
  Name : String
  Namespace : String
deriving DecidableEq

structure ServiceProfileSpec where
  Routes : List RouteSpec
deriving DecidableEq

structure ServiceProfile where
  objectMeta : ObjectMeta
  spec : ServiceProfileSpec
deriving DecidableEq

/-- One route as built by the `proto.RPC` case of `handle`:
`Name`, `Method = http.MethodPost`, and
`PathRegex = regexp.QuoteMeta(fmt.Sprintf("/%s.%s/%s", pkg, service, rpc))`. -/
def mkRoute (pkg service rpc : String) : RouteSpec :=
  { Name := rpc,
    Condition :=
      { Method := "POST",
        PathRegex := QuoteMeta (sprintf "/%s.%s/%s" [pkg, service, rpc]) } }

/-- The walk performed by `proto.Walk definition handle`: the second argument
is the current value of the mutable `pkg` variable (initially `""`). -/
def protoRoutes : List ProtoElem → String → List RouteSpec
  | [], _ => []
  | .pkg n :: rest, _ => protoRoutes rest n
  | .svc s rpcs :: rest, pkg =>
      rpcs.map (fun m => mkRoute pkg s m) ++ protoRoutes rest pkg
  | .other :: rest, pkg => protoRoutes rest pkg

/-- Embedding of `protoToServiceProfile` (src/unnamed/part_001), applied to an
already-parsed definition: builds the ObjectMeta name
`fmt.Sprintf("%s.%s.svc.cluster.local", name, namespace)` and the routes of
the walk. -/
def protoToServiceProfile (definition : List ProtoElem) (ns name : String) :
    ServiceProfile :=
  { objectMeta :=
      { Name := sprintf "%s.%s.svc.cluster.local" [name, ns],
        Namespace := ns },
    spec := { Routes := protoRoutes definition "" } }

def pkgNameOf : ProtoElem → Option String
  | .pkg n => some n
  | _ => none

/-- The spec's words: "package name is taken from the last package declaration
seen before the service block" (empty if none). -/
def lastPackageBefore (preceding : List ProtoElem) : String :=
  (preceding.filterMap pkgNameOf).getLastD ""

/-- Route list as the spec's §4.4 words describe it, independent of the code's
walk: for each method in each service block, in declaration order, one
RouteSpec with method POST and path matcher the regex-escaped literal
`/<package>.<service>/<method>`, the package being the last package
declaration preceding the service block. `preceding` accumulates the elements
already passed. -/
def specRoutesAux (preceding : List ProtoElem) : List ProtoElem → List RouteSpec
  | [] => []
  | e :: rest =>
      (match e with
       | .svc s rpcs =>
           rpcs.map (fun m =>
             { Name := m,
               Condition :=
                 { Method := "POST",
                   PathRegex := QuoteMeta
                     ("/" ++ lastPackageBefore preceding ++ "." ++ s ++ "/" ++ m) } })
       | _ => []) ++ specRoutesAux (preceding ++ [e]) rest

/-- Route list of a whole definition, per the spec's words. -/
def routesFromSpecText (definition : List ProtoElem) : List RouteSpec :=
  specRoutesAux [] definition

/-! ## controller/api/public/prometheus.go: the fan-out aggregator

Each sub-query goroutine formats its query, runs it through `queryProm`
(modelled by an `oracle` from query string to result-or-error), and sends one
`promResult` on the shared channel. The collecting loop receives exactly
`len(quantiles) + len(requestQueryTemplates)` messages; channel reception
order is scheduler-dependent, so the collector is analysed on an arbitrary
permutation `received` of the launched sub-query results.
-/

abbrev promType := String

def promRequests : promType := "QUERY_REQUESTS"
def promActualRequests : promType := "QUERY_ACTUAL_REQUESTS"
def promLatencyP50 : promType := "0.5"
def promLatencyP95 : promType := "0.95"
def promLatencyP99 : promType := "0.99"

structure promResult (V : Type) where
  prom : promType
  vec : Option V
  err : Option String
deriving DecidableEq

/-- Embedding of `queryProm`: returns `(nil, err)` on failure and
`(vector, nil)` on success. -/
def queryProm {V : Type} (oracle : String → Except String V) (query : String) :
    Option V × Option String :=
  match oracle query with
  | .ok v => (some v, none)
  | .error e => (none, some e)

/-- The fixed quantile list of `getPrometheusMetrics`. -/
def quantiles : List promType := [promLatencyP50, promLatencyP95, promLatencyP99]

/-- Results of the request-count goroutines, in launch order. Each formats
`fmt.Sprintf(template, labels, timeWindow, groupBy)`. -/
def requestResults {V : Type} (oracle : String → Except String V)
    (requestQueryTemplates : List (promType × String))
    (labels timeWindow groupBy : String) : List (promResult V) :=
  requestQueryTemplates.map (fun pt =>
    let r := queryProm oracle (sprintf pt.2 [labels, timeWindow, groupBy])
    { prom := pt.1, vec := r.1, err := r.2 })

/-- Results of the three latency goroutines, in launch order. Each formats
`fmt.Sprintf(latencyQueryTemplate, quantile, labels, timeWindow, groupBy)`. -/
def latencyResults {V : Type} (oracle : String → Except String V)
    (latencyQueryTemplate labels timeWindow groupBy : String) :
    List (promResult V) :=
  quantiles.map (fun quantile =>
    let r := queryProm oracle
      (sprintf latencyQueryTemplate [quantile, labels, timeWindow, groupBy])
    { prom := quantile, vec := r.1, err := r.2 })

/-- All sub-query results launched by one `getPrometheusMetrics` call. -/
def launchedResults {V : Type} (oracle : String → Except String V)
    (requestQueryTemplates : List (promType × String))
    (latencyQueryTemplate labels timeWindow groupBy : String) :
    List (promResult V) :=
  requestResults oracle requestQueryTemplates labels timeWindow groupBy ++
    latencyResults oracle latencyQueryTemplate labels timeWindow groupBy

/-- One iteration of the collecting loop: on `result.err != nil` overwrite the
local `err` variable, otherwise append the result to `results`. -/
def collectStep {V : Type} (st : Option String × List (promResult V))
    (result : promResult V) : Option String × List (promResult V) :=
  match result.err with
  | some e => (some e, st.2)
  | none => (st.1, st.2 ++ [result])

/-- The collecting tail of `getPrometheusMetrics`, applied to the channel's
reception sequence: fold the loop body, then `if err != nil return nil, err`. -/
def getPrometheusMetrics {V : Type} (received : List (promResult V)) :
    Option (List (promResult V)) × Option String :=
  let st := received.foldl collectStep (none, [])
  match st.1 with
  | some e => (none, some e)
  | none => (some st.2, none)

/-! ## Service Port Index diff delivery and listener view -/

structure updateAddress where
  ip : ℕ
  port : ℕ
deriving DecidableEq

/-- Modelled from the spec: the Service Port Index's diff computation
(§4.1) is not among the sources under src/ (only the collecting test listener
is); per the spec, an update to `new` from stored set `old` delivers the batch
(added, removed) = (new \ old, old \ new); addresses in both sets are not
redelivered. -/
def diffUpdate (old new : Finset updateAddress) :
    Finset updateAddress × Finset updateAddress :=
  (new \ old, old \ new)

/-- Modelled from the spec: a listener applies a delivered batch by adding the
added addresses and deleting the removed addresses (§8 snapshot-consistency
wording). -/
def applyBatch (s : Finset updateAddress)
    (batch : Finset updateAddress × Finset updateAddress) :
    Finset updateAddress :=
  (s ∪ batch.1) \ batch.2

/-- Batches delivered for a sequence of recomputed address sets, starting from
the stored set `current`. -/
def batchesFrom (current : Finset updateAddress) :
    List (Finset updateAddress) →
    List (Finset updateAddress × Finset updateAddress)
  | [] => []
  | n :: rest => diffUpdate current n :: batchesFrom n rest

/-- Modelled from the spec: on subscription the listener first receives one
synthetic "added" batch equal to the full current set (§4.3), then the diff
batches of every subsequent update. -/
def deliveredBatches (initial : Finset updateAddress)
    (updates : List (Finset updateAddress)) :
    List (Finset updateAddress × Finset updateAddress) :=
  (initial, ∅) :: batchesFrom initial updates

/-- The listener's cumulative view: start from the empty set and apply every
delivered batch in order (as the collecting listener of
controller/api/proxy accumulates them). -/
def listenerView (initial : Finset updateAddress)
    (updates : List (Finset updateAddress)) : Finset updateAddress :=
  (deliveredBatches initial updates).foldl applyBatch ∅

/-- The Index's current address set after the same updates. -/
def indexSet (initial : Finset updateAddress)
    (updates : List (Finset updateAddress)) : Finset updateAddress :=
  updates.getLastD initial

/-! ## controller/api/public grpc_server: ListPods request validation -/

structure PbResource where
  rtype : String
  rname : String
deriving DecidableEq

structure ResourceSelection where
  Resource : Option PbResource
deriving DecidableEq

structure ListPodsRequest where
  Namespace : String
  Selector : Option ResourceSelection
deriving DecidableEq

structure ListPodsResponse where
  pods : List String
deriving DecidableEq

/-- Modelled from the spec: the `ListPods` handler itself is not among the
sources under src/ (only its test is). Per §7's taxonomy a request that sets
both the Namespace field and a Selector.Resource is a validation error,
rejected before any cache or metrics-backend call; the error cause is the one
asserted by `TestListPods`. Everything after validation is abstracted as
`rest`; the third component of the result traces the backend queries issued. -/
def ListPods
    (rest : ListPodsRequest → Option ListPodsResponse × Option String × List String)
    (req : ListPodsRequest) :
    Option ListPodsResponse × Option String × List String :=
  if req.Namespace ≠ "" ∧ req.Selector.bind (·.Resource) ≠ none then
    (none,
     some "cannot set both namespace and resource in the request. These are mutually exclusive",
     [])
  else rest req

/-! ## web dashboard: the "is this resource meshed" heuristic

From `ResourceDetailBase.loadFromServer`:
`let resourceIsMeshed = true;
 if (!_isEmpty(this.state.resourceMetrics)) {
   resourceIsMeshed = _get(this.state.resourceMetrics, '[0].pods.meshedPods') > 0;
 }`
`_get` returning `undefined` (missing path) compares as false under `> 0`;
present values are compared numerically (the fixtures store numeric strings,
which JS coerces), modelled as the numeric content `Int`.
-/

structure PodsStats where
  meshedPods : Option Int
deriving DecidableEq

structure ResourceMetric where
  pods : Option PodsStats
deriving DecidableEq

/-- JS `x > 0` on the result of `_get`: false for `undefined`. -/
def jsGtZero : Option Int → Bool
  | none => false
  | some n => decide (0 < n)

/-- JS `_get(rows, '[0].pods.meshedPods')`. -/
def jsGetMeshedPods (rows : List ResourceMetric) : Option Int :=
  (rows.head?.bind (·.pods)).bind (·.meshedPods)

/-- Embedding of the dashboard's meshed-flag computation on the previously
stored resource-metrics batch. -/
def resourceIsMeshed (previousMetrics : List ResourceMetric) : Bool :=
  if previousMetrics.isEmpty then true
  else jsGtZero (jsGetMeshedPods previousMetrics)

/-! ## Helper lemmas -/

theorem sprintf_profile_name (a b : String) :
    sprintf "%s.%s.svc.cluster.local" [a, b] =
      a ++ "." ++ b ++ ".svc.cluster.local" := by
  obtain ⟨as⟩ := a
  obtain ⟨bs⟩ := b
  show String.mk _ = String.mk _
  congr 1
  simp [sprintfAux]

theorem sprintf_route_path (p s m : String) :
    sprintf "/%s.%s/%s" [p, s, m] = "/" ++ p ++ "." ++ s ++ "/" ++ m := by
  obtain ⟨ps⟩ := p
  obtain ⟨ss⟩ := s
  obtain ⟨ms⟩ := m
  show String.mk _ = String.mk _
  congr 1
  simp [sprintfAux]

theorem lastPackageBefore_append_pkg (pre : List ProtoElem) (n : String) :
    lastPackageBefore (pre ++ [.pkg n]) = n := by
  simp [lastPackageBefore, List.filterMap_append, pkgNameOf]

theorem lastPackageBefore_append_of_none (pre : List ProtoElem) (e : ProtoElem)
    (h : pkgNameOf e = none) :
    lastPackageBefore (pre ++ [e]) = lastPackageBefore pre := by
  simp [lastPackageBefore, List.filterMap_append, h]

theorem specRoutesAux_eq_protoRoutes (definition : List ProtoElem) :
    ∀ pre, specRoutesAux pre definition =
      protoRoutes definition (lastPackageBefore pre) := by
  induction definition with
  | nil => intro pre; rfl
  | cons e rest ih =>
    intro pre
    cases e with
    | pkg n =>
      simp only [specRoutesAux, protoRoutes, List.nil_append]
      rw [ih (pre ++ [ProtoElem.pkg n]), lastPackageBefore_append_pkg]
    | svc s rpcs =>
      simp only [specRoutesAux, protoRoutes]
      rw [ih (pre ++ [ProtoElem.svc s rpcs]),
        lastPackageBefore_append_of_none pre (ProtoElem.svc s rpcs) rfl]
      congr 1
      apply List.map_congr_left
      intro m _
      simp [mkRoute, sprintf_route_path]
    | other =>
      simp only [specRoutesAux, protoRoutes, List.nil_append]
      rw [ih (pre ++ [ProtoElem.other]),
        lastPackageBefore_append_of_none pre ProtoElem.other rfl]

/-! ## Claim theorems C5 through C10 -/

/-- Claim C5: for every input namespace and service name, the derived profile
has ObjectMeta.Name exactly `<service>.<namespace>.svc.cluster.local`,
Namespace equal to the given namespace, and Spec.Routes the ordered RouteSpec
list produced by the derivation walk. -/
theorem c5_profile_resource_shape (definition : List ProtoElem)
    (ns name : String) :
    (protoToServiceProfile definition ns name).objectMeta.Name =
        name ++ "." ++ ns ++ ".svc.cluster.local" ∧
    (protoToServiceProfile definition ns name).objectMeta.Namespace = ns ∧
    (protoToServiceProfile definition ns name).spec.Routes =
        protoRoutes definition "" :=
  ⟨sprintf_profile_name name ns, rfl, rfl⟩

/-- Claim C8: profile derivation is deterministic and cluster-state
independent: it is a pure function of the parsed definition, the namespace
and the name, so equal inputs give identical ServiceProfiles. -/
theorem c8_profile_derivation_deterministic
    (d₁ d₂ : List ProtoElem) (ns₁ ns₂ n₁ n₂ : String)
    (hd : d₁ = d₂) (hns : ns₁ = ns₂) (hn : n₁ = n₂) :
    protoToServiceProfile d₁ ns₁ n₁ = protoToServiceProfile d₂ ns₂ n₂ := by
  subst hd
  subst hns
  subst hn
  rfl

theorem c8_profile_derivation_deterministic_witness :
    protoToServiceProfile [.pkg "emojivoto.v1", .svc "VotingService" ["VoteFish"]]
        "emojivoto" "voting" =
      protoToServiceProfile [.pkg "emojivoto.v1", .svc "VotingService" ["VoteFish"]]
        "emojivoto" "voting" :=
  c8_profile_derivation_deterministic _ _ _ _ _ _ rfl rfl rfl

/-- Claim C9: the CLI rate helpers guard division by zero: a zero (wrapped
uint64) total yields 0.0 from `getSuccessRate` and `getPercentTLS`; otherwise
each returns the ratio of its numerator to the nonzero total. -/
theorem c9_rate_helpers_guard_division (success failure : ℕ) (stats : BasicStats) :
    ((success + failure) % 2 ^ 64 = 0 → getSuccessRate success failure = 0) ∧
    ((success + failure) % 2 ^ 64 ≠ 0 →
      getSuccessRate success failure =
        (success : ℚ) / (((success + failure) % 2 ^ 64 : ℕ) : ℚ) ∧
      (((success + failure) % 2 ^ 64 : ℕ) : ℚ) ≠ 0) ∧
    ((stats.SuccessCount + stats.FailureCount) % 2 ^ 64 = 0 →
      getPercentTLS stats = 0) ∧
    ((stats.SuccessCount + stats.FailureCount) % 2 ^ 64 ≠ 0 →
      getPercentTLS stats =
        (stats.TlsRequestCount : ℚ) /
          (((stats.SuccessCount + stats.FailureCount) % 2 ^ 64 : ℕ) : ℚ) ∧
      (((stats.SuccessCount + stats.FailureCount) % 2 ^ 64 : ℕ) : ℚ) ≠ 0) := by
  refine ⟨fun h => ?_, fun h => ?_, fun h => ?_, fun h => ?_⟩
  · simp only [getSuccessRate, if_pos h]
  · exact ⟨by simp only [getSuccessRate, if_neg h], Nat.cast_ne_zero.mpr h⟩
  · simp only [getPercentTLS, if_pos h]
  · exact ⟨by simp only [getPercentTLS, if_neg h], Nat.cast_ne_zero.mpr h⟩

theorem c9_rate_helpers_guard_division_witness :
    getSuccessRate 3 1 = ((3 : ℕ) : ℚ) / (((3 + 1) % 2 ^ 64 : ℕ) : ℚ) ∧
    getPercentTLS ⟨2, 2, 1⟩ =
      ((1 : ℕ) : ℚ) / (((2 + 2) % 2 ^ 64 : ℕ) : ℚ) ∧
    getSuccessRate 0 0 = 0 :=
  ⟨((c9_rate_helpers_guard_division 3 1 ⟨2, 2, 1⟩).2.1 (by decide)).1,
   ((c9_rate_helpers_guard_division 3 1 ⟨2, 2, 1⟩).2.2.2 (by decide)).1,
   (c9_rate_helpers_guard_division 0 0 ⟨0, 0, 0⟩).1 (by decide)⟩

/-- Claim C10: for every canonical resource name in AllResources, converting
to its short name and back returns the canonical name without error, and the
short name is never empty. -/
theorem c10_short_name_round_trip :
    ∀ c ∈ AllResources,
      CanonicalResourceNameFromFriendlyName
          (ShortNameFromCanonicalResourceName c) = Except.ok c ∧
      ShortNameFromCanonicalResourceName c ≠ "" := by
  intro c hc
  simp only [AllResources, List.mem_cons, List.not_mem_nil, or_false] at hc
  rcases hc with rfl | rfl | rfl | rfl | rfl | rfl | rfl | rfl | rfl | rfl | rfl <;>
    exact ⟨by rfl, by decide⟩

theorem c10_short_name_round_trip_witness :
    CanonicalResourceNameFromFriendlyName
        (ShortNameFromCanonicalResourceName Authority) = Except.ok Authority ∧
    ShortNameFromCanonicalResourceName Authority ≠ "" :=
  c10_short_name_round_trip Authority (by decide)

/-- Claim C6: a ListPods request that sets both the Namespace field and a
Selector.Resource is rejected as a validation error: nil response, the
mutually-exclusive cause, and no cache or metrics-backend query issued,
whatever the post-validation handler would do. -/
theorem c6_list_pods_validation
    (rest : ListPodsRequest → Option ListPodsResponse × Option String × List String)
    (req : ListPodsRequest)
    (hns : req.Namespace ≠ "")
    (hres : req.Selector.bind (·.Resource) ≠ none) :
    ListPods rest req =
      (none,
       some "cannot set both namespace and resource in the request. These are mutually exclusive",
       []) := by
  simp [ListPods, hns, hres]

theorem c6_list_pods_validation_witness :
    ListPods (fun _ => (some ⟨["emojivoto/emojivoto-meshed"]⟩, none, ["prom-query"]))
      { Namespace := "test",
        Selector := some { Resource := some { rtype := "pod", rname := "" } } } =
      (none,
       some "cannot set both namespace and resource in the request. These are mutually exclusive",
       []) :=
  c6_list_pods_validation _ _ (by decide) (by decide)

/-- Claim C7: the dashboard's meshed flag is true on an empty previous batch
and otherwise equals whether the first element's pods.meshedPods is a value
greater than zero; elements other than the first never affect it. -/
theorem c7_meshed_flag_first_element :
    resourceIsMeshed [] = true ∧
    (∀ r rest, resourceIsMeshed (r :: rest) =
      jsGtZero (r.pods.bind (·.meshedPods))) ∧
    (∀ r rest rest', resourceIsMeshed (r :: rest) = resourceIsMeshed (r :: rest')) := by
  refine ⟨rfl, fun r rest => ?_, fun r rest rest' => ?_⟩
  · simp [resourceIsMeshed, jsGetMeshedPods]
  · simp [resourceIsMeshed, jsGetMeshedPods]

/-- Claim C2: profile derivation produces exactly one RouteSpec per method in
a service block, in declaration order, named after the method, with method
POST and path regex the escaped literal `/<package>.<service>/<method>`
(package = last package declaration before the service block, empty if none);
in particular the emojivoto instance yields the single escaped VoteFish route. -/
theorem c2_proto_derivation_routes :
    (∀ (definition : List ProtoElem) (ns name : String),
      (protoToServiceProfile definition ns name).spec.Routes =
        routesFromSpecText definition) ∧
    (protoToServiceProfile
        [.pkg "emojivoto.v1", .svc "VotingService" ["VoteFish"]]
        "emojivoto" "voting").spec.Routes =
      [{ Name := "VoteFish",
         Condition :=
           { Method := "POST",
             PathRegex := "/emojivoto\\.v1\\.VotingService/VoteFish" } }] := by
  constructor
  · intro definition ns name
    show protoRoutes definition "" = routesFromSpecText definition
    rw [routesFromSpecText, specRoutesAux_eq_protoRoutes definition []]
    rfl
  · rfl

/-! ## Claim C3: snapshot-consistency of the diff-delivery machinery -/

theorem applyBatch_diffUpdate (old new : Finset updateAddress) :
    applyBatch old (diffUpdate old new) = new := by
  ext a
  simp only [applyBatch, diffUpdate, Finset.mem_sdiff, Finset.mem_union]
  tauto

theorem foldl_batchesFrom (updates : List (Finset updateAddress)) :
    ∀ s, (batchesFrom s updates).foldl applyBatch s = updates.getLastD s := by
  induction updates with
  | nil => intro s; rfl
  | cons n rest ih =>
    intro s
    simp only [batchesFrom, List.foldl_cons, applyBatch_diffUpdate]
    rw [ih n, List.getLastD_cons]

/-- Claim C3: for any subscribed listener, replaying the initial synthetic
added batch and every delivered diff batch in order reproduces the Index's
current address set at every observation point; and an address present in
both the old and the new set of an update is never redelivered in either
batch of the diff. -/
theorem c3_snapshot_consistency :
    (∀ (initial : Finset updateAddress) (updates : List (Finset updateAddress)),
      listenerView initial updates = indexSet initial updates) ∧
    (∀ (old new : Finset updateAddress) (a : updateAddress),
      a ∈ old → a ∈ new →
        a ∉ (diffUpdate old new).1 ∧ a ∉ (diffUpdate old new).2) := by
  constructor
  · intro initial updates
    show ((initial, ∅) :: batchesFrom initial updates).foldl applyBatch ∅ =
      updates.getLastD initial
    rw [List.foldl_cons]
    have h0 : applyBatch ∅ (initial, (∅ : Finset updateAddress)) = initial := by
      simp [applyBatch]
    rw [h0, foldl_batchesFrom updates initial]
  · intro old new a ho hn
    constructor
    · simp [diffUpdate, ho]
    · simp [diffUpdate, hn]

theorem c3_snapshot_consistency_witness :
    listenerView {⟨1, 8080⟩} [{⟨1, 8080⟩, ⟨2, 8080⟩}, {⟨2, 8080⟩}] =
      {⟨2, 8080⟩} ∧
    ((⟨1, 8080⟩ : updateAddress) ∉
        (diffUpdate {⟨1, 8080⟩} {⟨1, 8080⟩, ⟨2, 8080⟩}).1 ∧
      (⟨1, 8080⟩ : updateAddress) ∉
        (diffUpdate {⟨1, 8080⟩} {⟨1, 8080⟩, ⟨2, 8080⟩}).2) := by
  constructor
  · have h := c3_snapshot_consistency.1 {⟨1, 8080⟩}
      [{⟨1, 8080⟩, ⟨2, 8080⟩}, {⟨2, 8080⟩}]
    rw [h]
    decide
  · exact c3_snapshot_consistency.2 {⟨1, 8080⟩} {⟨1, 8080⟩, ⟨2, 8080⟩} ⟨1, 8080⟩
      (by decide) (by decide)

/-! ## Claims C1 and C4: the fan-out aggregator -/

theorem collect_foldl {V : Type} (received : List (promResult V)) :
    received.foldl collectStep (none, []) =
      ((received.filterMap (fun r => r.err)).getLast?,
       received.filter (fun r => r.err.isNone)) := by
  induction received using List.reverseRecOn with
  | nil => rfl
  | append_singleton l r ih =>
    rw [List.foldl_append, ih]
    cases hr : r.err with
    | some e =>
      simp [collectStep, hr, List.filterMap_append, List.filter_append]
    | none =>
      simp [collectStep, hr, List.filterMap_append, List.filter_append]

/-- Claim C1 as stated is false: the collecting loop overwrites its error
variable on every failed sub-query, so when two sub-queries fail the call
returns the last received error, not the first encountered one. Concretely,
with templates t1 and t2 failing with "e1" and "e2" and results received in
launch order, the first encountered error is "e1" but the call returns "e2". -/
theorem c1_fanout_first_error_counterexample :
    ((launchedResults
        (fun q => if q = "t1" then Except.error "e1"
          else if q = "t2" then Except.error "e2" else Except.ok (0 : ℕ))
        [(promRequests, "t1"), (promActualRequests, "t2")]
        "lt" "" "" "").filterMap (fun r => r.err)).head? = some "e1" ∧
    getPrometheusMetrics
      (launchedResults
        (fun q => if q = "t1" then Except.error "e1"
          else if q = "t2" then Except.error "e2" else Except.ok (0 : ℕ))
        [(promRequests, "t1"), (promActualRequests, "t2")]
        "lt" "" "" "") = (none, some "e2") ∧
    ("e2" : String) ≠ "e1" :=
  ⟨rfl, rfl, by decide⟩

/-- Claim C1 (amended): when at least one sub-query fails, the aggregator
returns a nil result together with an error, having first received exactly
one completion per launched sub-query (one per request-query template plus
one per latency quantile, so none is left outstanding); the error returned is
the last encountered sub-query error in completion order. -/
theorem c1_fanout_error_join {V : Type} (oracle : String → Except String V)
    (requestQueryTemplates : List (promType × String))
    (latencyQueryTemplate labels timeWindow groupBy : String)
    (received : List (promResult V))
    (hperm : received.Perm (launchedResults oracle requestQueryTemplates
      latencyQueryTemplate labels timeWindow groupBy))
    (herr : ∃ r ∈ received, r.err ≠ none) :
    received.length = requestQueryTemplates.length + 3 ∧
    ∃ e, (received.filterMap (fun r => r.err)).getLast? = some e ∧
      getPrometheusMetrics received = (none, some e) := by
  constructor
  · rw [hperm.length_eq]
    simp [launchedResults, requestResults, latencyResults, quantiles]
  · have hne : received.filterMap (fun r => r.err) ≠ [] := by
      intro hcon
      obtain ⟨r, hr, hre⟩ := herr
      exact hre (List.filterMap_eq_nil_iff.mp hcon r hr)
    cases hl : (received.filterMap (fun r => r.err)).getLast? with
    | none => exact absurd (List.getLast?_eq_none_iff.mp hl) hne
    | some e =>
      refine ⟨e, rfl, ?_⟩
      simp [getPrometheusMetrics, collect_foldl, hl]

theorem c1_fanout_error_join_witness :
    (launchedResults
        (fun q => if q = "t1" then Except.error "e1" else Except.ok (0 : ℕ))
        [(promRequests, "t1")] "lt" "" "" "").length = 1 + 3 ∧
    ∃ e, ((launchedResults
        (fun q => if q = "t1" then Except.error "e1" else Except.ok (0 : ℕ))
        [(promRequests, "t1")] "lt" "" "" "").filterMap
          (fun r => r.err)).getLast? = some e ∧
      getPrometheusMetrics
        (launchedResults
          (fun q => if q = "t1" then Except.error "e1" else Except.ok (0 : ℕ))
          [(promRequests, "t1")] "lt" "" "" "") = (none, some e) :=
  c1_fanout_error_join _ _ _ _ _ _ _ (List.Perm.refl _) (by decide)

/-- Claim C4: when every sub-query succeeds, the aggregator returns a nil
error and exactly `len(requestQueryTemplates) + 3` results, one per query
kind (each template's promType and the three latency quantiles), each result
being the one its sub-query produced. -/
theorem c4_fanout_success {V : Type} (oracle : String → Except String V)
    (requestQueryTemplates : List (promType × String))
    (latencyQueryTemplate labels timeWindow groupBy : String)
    (received : List (promResult V))
    (hperm : received.Perm (launchedResults oracle requestQueryTemplates
      latencyQueryTemplate labels timeWindow groupBy))
    (hok : ∀ r ∈ received, r.err = none) :
    getPrometheusMetrics received = (some received, none) ∧
    received.length = requestQueryTemplates.length + 3 ∧
    (received.map (fun r => r.prom)).Perm
      (requestQueryTemplates.map Prod.fst ++ quantiles) ∧
    (∀ r ∈ received, r ∈ launchedResults oracle requestQueryTemplates
      latencyQueryTemplate labels timeWindow groupBy) := by
  refine ⟨?_, ?_, ?_, fun r hr => hperm.mem_iff.mp hr⟩
  · have h1 : received.filterMap (fun r => r.err) = [] :=
      List.filterMap_eq_nil_iff.mpr hok
    have h2 : received.filter (fun r => r.err.isNone) = received := by
      rw [List.filter_eq_self]
      intro r hr
      simp [hok r hr]
    simp [getPrometheusMetrics, collect_foldl, h1, h2]
  · rw [hperm.length_eq]
    simp [launchedResults, requestResults, latencyResults, quantiles]
  · have hmap : (launchedResults oracle requestQueryTemplates
        latencyQueryTemplate labels timeWindow groupBy).map (fun r => r.prom) =
        requestQueryTemplates.map Prod.fst ++ quantiles := by
      simp only [launchedResults, requestResults, latencyResults,
        List.map_append, List.map_map]
      rfl
    rw [← hmap]
    exact hperm.map (fun r => r.prom)

theorem c4_fanout_success_witness :
    getPrometheusMetrics
        (launchedResults (fun _ => Except.ok (0 : ℕ))
          [(promRequests, "tq")] "lt" "" "" "") =
      (some (launchedResults (fun _ => Except.ok (0 : ℕ))
        [(promRequests, "tq")] "lt" "" "" ""), none) ∧
    (launchedResults (fun _ => Except.ok (0 : ℕ))
      [(promRequests, "tq")] "lt" "" "" "").length = 1 + 3 ∧
    ((launchedResults (fun _ => Except.ok (0 : ℕ))
        [(promRequests, "tq")] "lt" "" "" "").map (fun r => r.prom)).Perm
      ([(promRequests, "tq")].map Prod.fst ++ quantiles) ∧
    (∀ r ∈ launchedResults (fun _ => Except.ok (0 : ℕ))
        [(promRequests, "tq")] "lt" "" "" "",
      r ∈ launchedResults (fun _ => Except.ok (0 : ℕ))
        [(promRequests, "tq")] "lt" "" "" "") :=
  c4_fanout_success _ _ _ _ _ _ _ (List.Perm.refl _) (by decide)
